import Mathlib

set_option maxRecDepth 8000

/-
Verification of bin/runbalfinder_hp.py: a shallow embedding of the script's
configuration resolution, unit discovery, output scaffolding, per-unit
processing loop and error bookkeeping, together with theorems settling the
specification claims about it.
-/

namespace BalFinderHP

/-- Module-level debug constant (line 30 of runbalfinder_hp.py). -/
def debug : Bool := true

/-- Hard-coded value assigned to the DESI_SPECTRO_REDUX environment variable
on line 40, before the variable is ever read. -/
def spectroRedux : String := "/global/cfs/cdirs/desi/spectro/redux"

/-- Whether the first character of a string is a slash. -/
def startsWithSlash (s : String) : Bool := s.toList.headD ' ' == '/'

/-- Whether the last character of a string is a slash. -/
def endsWithSlash (s : String) : Bool := s.toList.reverse.headD ' ' == '/'

/-- Two-argument os.path.join for POSIX paths: an absolute second component
replaces the first; otherwise the components are joined, inserting a slash
unless the first component is empty or already ends with a slash. -/
def ospJoin (a b : String) : String :=
  if startsWithSlash b = true then b
  else if a = "" then a ++ b
  else if endsWithSlash a = true then a ++ b
  else a ++ "/" ++ b

/-- Python slice s[:3], as applied to a unit name (inputhealpix[:3]). -/
def pySlice3 (s : String) : String := String.mk (s.toList.take 3)

/-- Substring after the last slash; the whole string when no slash occurs.
Models healpixdir[healpixdir.rfind(slash)+1:] on line 92. -/
def afterLastSlash (s : String) : String :=
  String.mk ((s.toList.reverse.takeWhile (fun c => !(c == '/'))).reverse)

/-- Fuel-driven replace-all on character lists; with fuel at least the length
of the subject list and a non-empty pattern this is Python str.replace. -/
def replaceAux (pat rep : List Char) : Nat → List Char → List Char
  | _, [] => []
  | 0, l => l
  | Nat.succ fuel, c :: rest =>
    if pat.isPrefixOf (c :: rest) then
      rep ++ replaceAux pat rep fuel ((c :: rest).drop pat.length)
    else c :: replaceAux pat rep fuel rest

/-- Python str.replace for a non-empty pattern; line 116 uses it with the
pattern coadd- and the replacement baltable-. -/
def pyReplace (s pat rep : String) : String :=
  String.mk (replaceAux pat.toList rep.toList s.toList.length s.toList)

/-- Single-quote character as a string. -/
def squote : String := String.mk [Char.ofNat 39]

/-- Inner part of Python str() applied to a list of strings. -/
def reprJoin : List String → String
  | [] => ""
  | [x] => squote ++ x ++ squote
  | x :: y :: rest => squote ++ x ++ squote ++ ", " ++ reprJoin (y :: rest)

/-- Python str() of a list of simple strings (no characters needing escapes),
as produced by str.format applied to a list argument on line 98. -/
def pyListRepr (xs : List String) : String := "[" ++ reprJoin xs ++ "]"

/-- Parsed command-line arguments (lines 45-66). -/
structure Args where
  healpix : Option (List String)
  release : String
  survey : String
  moon : String
  outdir : String
  clobber : Bool
  verbose : Bool
deriving Repr, DecidableEq

/-- Python bool() applied to a string: false exactly on the empty string. -/
def pyBool (s : String) : Bool := !(s == "")

/-- The clobber option is declared with argparse type bool and default False
(lines 60-61): an absent option gives False, a present option applies
Python bool() to the raw argument string. -/
def parseClobber : Option String → Bool
  | none => false
  | some s => pyBool s

/-- Lines 68-69: when debug is set, args.verbose is forced to True right
after argument parsing. -/
def applyDebug (a : Args) : Args := if debug then { a with verbose := true } else a

/-- Line 40: the environment after the assignment to DESI_SPECTRO_REDUX,
given the environment env0 the process started with. -/
def setSpectroRedux (env0 : String → Option String) : String → Option String :=
  fun k => if k = "DESI_SPECTRO_REDUX" then some spectroRedux else env0 k

/-- Line 74: root directory for input data,
os.path.join(os.getenv(DESI_SPECTRO_REDUX), release, healpix, survey, moon). -/
def dataroot (env0 : String → Option String) (a : Args) : String :=
  ospJoin (ospJoin (ospJoin (ospJoin
    ((setSpectroRedux env0 "DESI_SPECTRO_REDUX").getD "") a.release)
    "healpix") a.survey) a.moon

/-- Line 82: root directory for output catalogs,
os.path.join(outdir, release, healpix, survey, moon). -/
def outroot (a : Args) : String :=
  ospJoin (ospJoin (ospJoin (ospJoin a.outdir a.release) "healpix") a.survey) a.moon

/-- Line 115: coadd-survey-moon-healpix.fits via str.format. -/
def coaddfilename (a : Args) (healpix : String) : String :=
  "coadd-" ++ a.survey ++ "-" ++ a.moon ++ "-" ++ healpix ++ ".fits"

/-- Line 116: the coadd filename with coadd- replaced by baltable-. -/
def balfilename (a : Args) (healpix : String) : String :=
  pyReplace (coaddfilename a healpix) "coadd-" "baltable-"

/-- os.path.join(root, unit[:3], unit): the bucketed per-unit directory
shape used on lines 104, 118 and 119. -/
def bucketDir (root unit : String) : String := ospJoin (ospJoin root (pySlice3 unit)) unit

/-- Lines 118 and 121: the full input coadd path computed inside the main
loop.  The directory part uses the variable inputhealpix, which the main
loop never rebinds: it retains the value given by the directory-creation
loop on line 103, namely the last selected unit. -/
def coaddfilePath (droot : String) (a : Args) (inputhealpix healpix : String) : String :=
  ospJoin (bucketDir droot inputhealpix) (coaddfilename a healpix)

/-- Lines 119 and 122: the full output catalog path computed inside the main
loop, with the same stale inputhealpix directory part. -/
def balfilePath (oroot : String) (a : Args) (inputhealpix healpix : String) : String :=
  ospJoin (bucketDir oroot inputhealpix) (balfilename a healpix)

/-- Arguments of one call to db.desibalfinder (line 130). -/
structure BalCall where
  coaddfile : String
  altbaldir : String
  overwrite : Bool
  verbose : Bool
  release : String
deriving Repr, DecidableEq

/-- Fixed per-run context of the main loop: the two roots, the arguments,
the stale inputhealpix value, and oracles for os.path.isfile and for the
outcome of a desibalfinder call (none means it returns, some e means it
raises an exception whose type is named e). -/
structure RunCtx where
  droot : String
  oroot : String
  args : Args
  stale : String
  isfile : String → Bool
  oracle : BalCall → Option String

/-- Line 128: the condition under which desibalfinder is invoked. -/
def skipCondition (c : RunCtx) (healpix : String) : Bool :=
  !(c.isfile (balfilePath c.oroot c.args c.stale healpix)) || c.args.clobber

/-- Line 130: the arguments the loop passes to db.desibalfinder. -/
def callOf (c : RunCtx) (healpix : String) : BalCall :=
  { coaddfile := coaddfilePath c.droot c.args c.stale healpix
  , altbaldir := bucketDir c.oroot c.stale
  , overwrite := c.args.clobber
  , verbose := c.args.verbose
  , release := c.args.release }

/-- Mutable state of the main loop: the trace of invoked units and calls,
and the two parallel failure lists issuehealpixels and errortypes
(lines 111-112). -/
structure LoopState where
  invoked : List String
  calls : List BalCall
  issuehealpixels : List String
  errortypes : List String
deriving Repr, DecidableEq

/-- Initial loop state: both failure lists start empty (lines 111-112). -/
def initState : LoopState := { invoked := [], calls := [], issuehealpixels := [], errortypes := [] }

/-- One iteration of the main loop (lines 114-135) for a single unit:
if the output file is absent or clobber is set, desibalfinder is called;
when the call raises, the unit and the error type are appended to the two
failure lists and the loop continues. -/
def stepUnit (c : RunCtx) (st : LoopState) (healpix : String) : LoopState :=
  if skipCondition c healpix then
    match c.oracle (callOf c healpix) with
    | none =>
      { st with invoked := st.invoked ++ [healpix]
              , calls := st.calls ++ [callOf c healpix] }
    | some e =>
      { st with invoked := st.invoked ++ [healpix]
              , calls := st.calls ++ [callOf c healpix]
              , issuehealpixels := st.issuehealpixels ++ [healpix]
              , errortypes := st.errortypes ++ [e] }
  else st

/-- The main loop over the selected units. -/
def runLoop (c : RunCtx) (units : List String) (st : LoopState) : LoopState :=
  units.foldl (stepUnit c) st

/-- Units for which the loop reaches the desibalfinder call. -/
def invokedUnits (c : RunCtx) (units : List String) : List String :=
  units.filter (fun u => skipCondition c u)

/-- The calls made by the loop, in order. -/
def madeCalls (c : RunCtx) (units : List String) : List BalCall :=
  (invokedUnits c units).map (fun u => callOf c u)

/-- The failure records produced by the loop: each invoked unit whose call
raises contributes the pair of the unit and the raised error type. -/
def issuePairs (c : RunCtx) (units : List String) : List (String × String) :=
  units.filterMap (fun u =>
    if skipCondition c u then (c.oracle (callOf c u)).map (fun e => (u, e)) else none)

/-- Boolean membership in a list of strings. -/
def memB (x : String) (l : List String) : Bool := l.any (fun y => y == x)

/-- pmmkdir (lines 32-38) succeeds unless the directory is missing and
os.makedirs raises PermissionError; in that case the script exits with
status 1. -/
def pmmkdirOk (isdir mkdirOk : String → Bool) (dir : String) : Bool :=
  isdir dir || mkdirOk dir

/-- Lines 96-98: the first requested unit not contained in the universe of
available units, in request order; the assert fails at that unit. -/
def firstMissing (req avail : List String) : Option String :=
  req.find? (fun r => !(avail.contains r))

/-- Lines 103-105: the first per-unit output directory whose creation fails
with a permission error, if any. -/
def firstBadDir (isdir mkdirOk : String → Bool) (oroot : String) :
    List String → Option String
  | [] => none
  | u :: rest =>
    if pmmkdirOk isdir mkdirOk (bucketDir oroot u) then
      firstBadDir isdir mkdirOk oroot rest
    else some (bucketDir oroot u)

/-- Lines 88-92: the universe of available units, the last path component of
each result of glob(dataroot + slash-star-slash-star). -/
def availHealpixels (globFn : String → List String)
    (env0 : String → Option String) (a : Args) : List String :=
  (globFn (dataroot env0 a ++ "/*/*")).map afterLastSlash

/-- How a run of the script terminates: exit(1) from pmmkdir, an uncaught
AssertionError from the membership check (both give a non-zero process
status), or normal completion carrying the final loop state. -/
inductive Termination where
  | permExit (dir : String)
  | assertFail (msg : String)
  | finished (st : LoopState)
deriving Repr, DecidableEq

/-- Process exit status of each termination: Python exits with 1 both on
exit(1) and on an uncaught AssertionError, and with 0 on normal return. -/
def statusOf : Termination → Nat
  | Termination.permExit _ => 1
  | Termination.assertFail _ => 1
  | Termination.finished _ => 0

/-- The desibalfinder calls made during a run (empty when the run aborts). -/
def callsOf : Termination → List BalCall
  | Termination.finished st => st.calls
  | _ => []

/-- The units for which desibalfinder was invoked during a run. -/
def invokedOf : Termination → List String
  | Termination.finished st => st.invoked
  | _ => []

/-- Lines 103-135: after the membership check, create the per-unit output
directories (exiting on a permission failure) and run the main loop; the
stale inputhealpix is the last selected unit, and when no unit is selected
the main loop body never runs. -/
def runAfterCheck (isdir mkdirOk isfile : String → Bool)
    (oracle : BalCall → Option String) (a : Args) (droot oroot : String)
    (inputhealpixels : List String) : Termination :=
  match firstBadDir isdir mkdirOk oroot inputhealpixels with
  | some d => Termination.permExit d
  | none =>
    match inputhealpixels.getLast? with
    | none => Termination.finished initState
    | some stale =>
      Termination.finished (runLoop
        { droot := droot, oroot := oroot, args := a, stale := stale
        , isfile := isfile, oracle := oracle } inputhealpixels initState)

/-- The whole script (lines 40-139): force verbose under debug, resolve the
roots, create the output root, discover the available units, check a
requested subset against them (an offending unit aborts with the assert
message built from the whole requested list), then process the selected
units. -/
def runProgram (env0 : String → Option String) (isdir mkdirOk : String → Bool)
    (globFn : String → List String) (isfile : String → Bool)
    (oracle : BalCall → Option String) (a0 : Args) : Termination :=
  if pmmkdirOk isdir mkdirOk (outroot (applyDebug a0)) = false then
    Termination.permExit (outroot (applyDebug a0))
  else
    match (applyDebug a0).healpix with
    | some req =>
      match firstMissing req (availHealpixels globFn env0 (applyDebug a0)) with
      | some _ => Termination.assertFail ("Healpix " ++ pyListRepr req ++ " not available")
      | none => runAfterCheck isdir mkdirOk isfile oracle (applyDebug a0)
          (dataroot env0 (applyDebug a0)) (outroot (applyDebug a0)) req
    | none => runAfterCheck isdir mkdirOk isfile oracle (applyDebug a0)
        (dataroot env0 (applyDebug a0)) (outroot (applyDebug a0))
        (availHealpixels globFn env0 (applyDebug a0))

/-- Environment with no variables set. -/
def env0none : String → Option String := fun _ => none

/-- Filesystem oracle answering true for every directory query. -/
def allTrue : String → Bool := fun _ => true

/-- Filesystem oracle answering false for every file query. -/
def allFalse : String → Bool := fun _ => false

/-- desibalfinder outcome oracle under which no call raises. -/
def noRaise : BalCall → Option String := fun _ => none

/-- desibalfinder outcome oracle under which every call raises a ValueError. -/
def raiseValueError : BalCall → Option String := fun _ => some "ValueError"

/-- Directory listing containing buckets for units 100 and 200. -/
def glob12 : String → List String := fun _ => ["d/100", "d/200"]

/-- Directory listing containing a bucket for unit 100 only. -/
def glob1 : String → List String := fun _ => ["d/100"]

/-- Run requesting units 100 and 200 of everest/main/dark into /out. -/
def argsC1 : Args :=
  { healpix := some ["100", "200"], release := "everest", survey := "main"
  , moon := "dark", outdir := "/out", clobber := false, verbose := false }

/-- File oracle under which only the mirrored output catalog of unit 100
exists, at the path the specification assigns to it. -/
def isfileC2 : String → Bool :=
  fun p => p == "/out/everest/healpix/main/dark/100/100/baltable-main-dark-100.fits"

/-- Run requesting units 100 and 999 while only 100 is available. -/
def argsC7 : Args :=
  { healpix := some ["100", "999"], release := "everest", survey := "main"
  , moon := "dark", outdir := "/out", clobber := false, verbose := false }

/-- The assert message the script builds for the run of argsC7. -/
def msgC7 : String :=
  "Healpix [" ++ squote ++ "100" ++ squote ++ ", " ++ squote ++ "999" ++ squote
    ++ "] not available"

/-- Run requesting unit 999 while only 100 is available. -/
def argsC5 : Args :=
  { healpix := some ["999"], release := "everest", survey := "main"
  , moon := "dark", outdir := "/out", clobber := false, verbose := false }

/-- The assert message the script builds for the run of argsC5. -/
def msgC5 : String := "Healpix [" ++ squote ++ "999" ++ squote ++ "] not available"

/-- Run requesting unit 100 of everest/main/dark with a parametric output
root. -/
def argsHP100 (od : String) : Args :=
  { healpix := some ["100"], release := "everest", survey := "main"
  , moon := "dark", outdir := od, clobber := false, verbose := false }

/-- Starting environment in which DESI_SPECTRO_REDUX is set to /custom. -/
def env6 : String → Option String :=
  fun k => if k = "DESI_SPECTRO_REDUX" then some "/custom" else none

/-- Default run arguments: process every discovered unit of
everest/main/dark into /out. -/
def argsDflt : Args :=
  { healpix := none, release := "everest", survey := "main", moon := "dark"
  , outdir := "/out", clobber := false, verbose := false }

/-- Arguments for a concrete loop context in which unit 100 fails. -/
def argsW4 : Args :=
  { healpix := none, release := "everest", survey := "main", moon := "dark"
  , outdir := "/o", clobber := false, verbose := true }

/-- Outcome oracle raising OSError exactly on the coadd path the loop
computes for unit 100 under the stale directory 300. -/
def oracleW4 : BalCall → Option String :=
  fun call =>
    if call.coaddfile == "/d/300/300/coadd-main-dark-100.fits" then some "OSError"
    else none

/-- Concrete loop context in which unit 100 raises OSError. -/
def ctxW4 : RunCtx :=
  { droot := "/d", oroot := "/o2", args := argsW4, stale := "300"
  , isfile := allFalse, oracle := oracleW4 }

/-- Concrete loop context whose clobber flag is set. -/
def ctxW10 : RunCtx :=
  { droot := "/d", oroot := "/o"
  , args := { healpix := none, release := "r", survey := "s", moon := "m"
            , outdir := "/x", clobber := true, verbose := true }
  , stale := "300", isfile := allTrue, oracle := noRaise }

/-- The main loop appends, to every starting state, the invoked units, the
calls made, and the failure pairs projected onto their two components. -/
theorem runLoop_eq (c : RunCtx) (units : List String) (st : LoopState) :
    runLoop c units st =
      { invoked := st.invoked ++ invokedUnits c units
      , calls := st.calls ++ madeCalls c units
      , issuehealpixels := st.issuehealpixels ++ (issuePairs c units).map Prod.fst
      , errortypes := st.errortypes ++ (issuePairs c units).map Prod.snd } := by
  induction units generalizing st with
  | nil =>
    simp [runLoop, invokedUnits, madeCalls, issuePairs]
  | cons u rest ih =>
    have hstep : runLoop c (u :: rest) st = runLoop c rest (stepUnit c st u) := by
      simp [runLoop]
    rw [hstep, ih]
    unfold stepUnit
    cases hsk : skipCondition c u with
    | false =>
      simp [invokedUnits, madeCalls, issuePairs, List.filter_cons, List.filterMap_cons, hsk]
    | true =>
      cases ho : c.oracle (callOf c u) with
      | none =>
        simp [invokedUnits, madeCalls, issuePairs, List.filter_cons, List.filterMap_cons,
          hsk, ho]
      | some e =>
        simp [invokedUnits, madeCalls, issuePairs, List.filter_cons, List.filterMap_cons,
          hsk, ho]

/-- Zipping the two component projections of a list of pairs recovers it. -/
theorem zip_fst_snd (l : List (String × String)) :
    (l.map Prod.fst).zip (l.map Prod.snd) = l := by
  induction l with
  | nil => rfl
  | cons p rest ih => cases p; simp [ih]

/-- The failure pairs of a concatenation are the concatenated failure pairs. -/
theorem issuePairs_append (c : RunCtx) (l1 l2 : List String) :
    issuePairs c (l1 ++ l2) = issuePairs c l1 ++ issuePairs c l2 := by
  simp [issuePairs, List.filterMap_append]

/-- Every failure pair records a unit of the processed list, with the error
type its own call raised. -/
theorem issuePairs_mem (c : RunCtx) (l : List String) (p : String × String)
    (hp : p ∈ issuePairs c l) :
    p.1 ∈ l ∧ skipCondition c p.1 = true ∧ c.oracle (callOf c p.1) = some p.2 := by
  unfold issuePairs at hp
  rw [List.mem_filterMap] at hp
  obtain ⟨u, hu, hf⟩ := hp
  by_cases hsk : skipCondition c u = true
  · rw [if_pos hsk] at hf
    cases ho : c.oracle (callOf c u) with
    | none => rw [ho] at hf; simp at hf
    | some e =>
      rw [ho] at hf
      simp only [Option.map_some', Option.some.injEq] at hf
      subst hf
      exact ⟨hu, hsk, ho⟩
  · rw [if_neg hsk] at hf
    simp at hf

/-- Boolean membership agrees with list membership. -/
theorem memB_iff (x : String) (l : List String) : memB x l = true ↔ x ∈ l := by
  simp only [memB, List.any_eq_true, beq_iff_eq]
  constructor
  · rintro ⟨y, hy, rfl⟩; exact hy
  · intro h; exact ⟨x, h, rfl⟩

/-- Appending strings appends their character lists. -/
theorem toList_append (a b : String) : (a ++ b).toList = a.toList ++ b.toList := by
  cases a
  cases b
  rfl

/-- String concatenation is associative. -/
theorem strAppend_assoc (a b c : String) : a ++ b ++ c = a ++ (b ++ c) := by
  cases a with
  | mk la =>
    cases b with
    | mk lb =>
      cases c with
      | mk lc =>
        show String.mk (la ++ lb ++ lc) = String.mk (la ++ (lb ++ lc))
        rw [List.append_assoc]

/-- A string is nonempty exactly when its character list is. -/
theorem str_ne_empty_iff (s : String) : ¬(s = "") ↔ s.toList ≠ [] := by
  cases s with
  | mk l =>
    constructor
    · intro h hl
      exact h (congrArg String.mk hl)
    · intro h he
      exact h (congrArg String.toList he)

/-- A string with a nonempty right append part is nonempty. -/
theorem append_ne_empty (a b : String) (hb : ¬(b = "")) : ¬(a ++ b = "") := by
  rw [str_ne_empty_iff] at hb ⊢
  rw [toList_append]
  intro h
  exact hb (List.append_eq_nil.mp h).2

/-- The last character of an append with nonempty right part is the last
character of the right part. -/
theorem endsWithSlash_append (a b : String) (hb : ¬(b = "")) :
    endsWithSlash (a ++ b) = endsWithSlash b := by
  rw [str_ne_empty_iff] at hb
  unfold endsWithSlash
  rw [toList_append, List.reverse_append]
  cases hl : b.toList.reverse with
  | nil => exact absurd (List.reverse_eq_nil_iff.mp hl) hb
  | cons x rest => simp

/-- os.path.join in the plain case: nonempty left part without a trailing
slash, right part not absolute. -/
theorem ospJoin_plain (a b : String) (ha : ¬(a = "")) (ha2 : endsWithSlash a = false)
    (hb : startsWithSlash b = false) : ospJoin a b = a ++ "/" ++ b := by
  unfold ospJoin
  rw [hb, ha2]
  simp [ha]

/-- One plain join step together with the facts needed to chain another. -/
theorem ospJoin_chain (a b : String) (ha : ¬(a = "")) (ha2 : endsWithSlash a = false)
    (hb : startsWithSlash b = false) (hb2 : ¬(b = "")) (hb3 : endsWithSlash b = false) :
    ospJoin a b = a ++ "/" ++ b
    ∧ ¬(a ++ "/" ++ b = "") ∧ endsWithSlash (a ++ "/" ++ b) = false := by
  refine ⟨ospJoin_plain a b ha ha2 hb, ?_, ?_⟩
  · rw [strAppend_assoc]
    exact append_ne_empty a ("/" ++ b) (append_ne_empty "/" b hb2)
  · rw [strAppend_assoc, endsWithSlash_append a ("/" ++ b) (append_ne_empty "/" b hb2),
      endsWithSlash_append "/" b hb2]
    exact hb3

/-- The exit status after the membership check depends only on the
directory-creation outcomes, never on the behavior of desibalfinder. -/
theorem statusOf_runAfterCheck (isdir mkdirOk isfile : String → Bool)
    (oracle : BalCall → Option String) (a : Args) (droot oroot : String)
    (units : List String) :
    statusOf (runAfterCheck isdir mkdirOk isfile oracle a droot oroot units)
      = match firstBadDir isdir mkdirOk oroot units with
        | some _ => 1
        | none => 0 := by
  unfold runAfterCheck
  cases firstBadDir isdir mkdirOk oroot units with
  | some d => rfl
  | none =>
    cases units.getLast? with
    | none => rfl
    | some stale => rfl

/-- The process exit status is independent of which calls of desibalfinder
raise: per-unit failures are all caught by the bare except. -/
theorem statusOf_oracle_indep (env0 : String → Option String)
    (isdir mkdirOk : String → Bool) (globFn : String → List String)
    (isfile : String → Bool) (o o' : BalCall → Option String) (a : Args) :
    statusOf (runProgram env0 isdir mkdirOk globFn isfile o a)
      = statusOf (runProgram env0 isdir mkdirOk globFn isfile o' a) := by
  unfold runProgram
  by_cases hp : pmmkdirOk isdir mkdirOk (outroot (applyDebug a)) = false
  · rw [if_pos hp, if_pos hp]
  · rw [if_neg hp, if_neg hp]
    cases (applyDebug a).healpix with
    | some req =>
      dsimp only
      cases firstMissing req (availHealpixels globFn env0 (applyDebug a)) with
      | some u => rfl
      | none =>
        dsimp only
        rw [statusOf_runAfterCheck, statusOf_runAfterCheck]
    | none =>
      dsimp only
      rw [statusOf_runAfterCheck, statusOf_runAfterCheck]

/-- Every call the loop makes carries the verbosity flag of the run context. -/
theorem runLoop_calls_verbose (c : RunCtx) (units : List String)
    (h : c.args.verbose = true) :
    ((runLoop c units initState).calls).all (fun cl => cl.verbose) = true := by
  rw [runLoop_eq]
  simp only [initState, List.nil_append, madeCalls, List.all_eq_true]
  intro cl hcl
  obtain ⟨u, hu, rfl⟩ := List.mem_map.mp hcl
  simpa [callOf] using h

/-- Every call made after the membership check carries the run verbosity. -/
theorem runAfterCheck_calls_verbose (isdir mkdirOk isfile : String → Bool)
    (oracle : BalCall → Option String) (a : Args) (droot oroot : String)
    (units : List String) (h : a.verbose = true) :
    ((callsOf (runAfterCheck isdir mkdirOk isfile oracle a droot oroot units)).all
      (fun cl => cl.verbose)) = true := by
  unfold runAfterCheck
  cases firstBadDir isdir mkdirOk oroot units with
  | some d => rfl
  | none =>
    dsimp only
    cases units.getLast? with
    | none => rfl
    | some stale =>
      dsimp only [callsOf]
      exact runLoop_calls_verbose
        { droot := droot, oroot := oroot, args := a, stale := stale
        , isfile := isfile, oracle := oracle } units h

/-- Every call made during a run carries the debug-forced verbosity. -/
theorem runProgram_calls_verbose (env0 : String → Option String)
    (isdir mkdirOk : String → Bool) (globFn : String → List String)
    (isfile : String → Bool) (o : BalCall → Option String) (a : Args) :
    ((callsOf (runProgram env0 isdir mkdirOk globFn isfile o a)).all
      (fun cl => cl.verbose)) = true := by
  have hv : (applyDebug a).verbose = true := rfl
  unfold runProgram
  by_cases hp : pmmkdirOk isdir mkdirOk (outroot (applyDebug a)) = false
  · rw [if_pos hp]; rfl
  · rw [if_neg hp]
    cases (applyDebug a).healpix with
    | some req =>
      dsimp only
      cases firstMissing req (availHealpixels globFn env0 (applyDebug a)) with
      | some u => rfl
      | none =>
        dsimp only
        exact runAfterCheck_calls_verbose isdir mkdirOk isfile o (applyDebug a)
          (dataroot env0 (applyDebug a)) (outroot (applyDebug a)) req hv
    | none =>
      dsimp only
      exact runAfterCheck_calls_verbose isdir mkdirOk isfile o (applyDebug a)
        (dataroot env0 (applyDebug a)) (outroot (applyDebug a))
        (availHealpixels globFn env0 (applyDebug a)) hv

/-- C1: in the run requesting units 100 and 200, the loop computes both
desibalfinder calls with the LAST unit's bucket and directory (200/200):
the input path for unit 100 is dark/200/200/coadd-main-dark-100.fits, not
dark/100/100/coadd-main-dark-100.fits as the claim requires, because the
directory parts on lines 118-119 use the stale variable inputhealpix
rather than the loop variable healpix. -/
theorem claim1_stale_bucket_eval :
    callsOf (runProgram env0none allTrue allTrue glob12 allFalse noRaise argsC1)
      = [ { coaddfile := "/global/cfs/cdirs/desi/spectro/redux/everest/healpix/main/dark/200/200/coadd-main-dark-100.fits"
          , altbaldir := "/out/everest/healpix/main/dark/200/200"
          , overwrite := false, verbose := true, release := "everest" }
        , { coaddfile := "/global/cfs/cdirs/desi/spectro/redux/everest/healpix/main/dark/200/200/coadd-main-dark-200.fits"
          , altbaldir := "/out/everest/healpix/main/dark/200/200"
          , overwrite := false, verbose := true, release := "everest" } ]
    ∧ ¬((callsOf (runProgram env0none allTrue allTrue glob12 allFalse noRaise argsC1)).map
          (fun cl => cl.coaddfile)
        = [ "/global/cfs/cdirs/desi/spectro/redux/everest/healpix/main/dark/100/100/coadd-main-dark-100.fits"
          , "/global/cfs/cdirs/desi/spectro/redux/everest/healpix/main/dark/200/200/coadd-main-dark-200.fits" ]) := by
  decide

/-- C2: unit 100's own mirrored output catalog exists and clobber is false,
yet desibalfinder IS invoked for unit 100, because the skip check on
line 128 tests the catalog path under the last unit's directory (200/200),
where no file exists. -/
theorem claim2_skip_check_eval :
    argsC1.clobber = false
    ∧ isfileC2 "/out/everest/healpix/main/dark/100/100/baltable-main-dark-100.fits" = true
    ∧ isfileC2 (balfilePath (outroot (applyDebug argsC1)) (applyDebug argsC1) "200" "100") = false
    ∧ memB "100" (invokedOf (runProgram env0none allTrue allTrue glob12 isfileC2 noRaise argsC1)) = true := by
  decide

/-- C3: with release everest, survey main, moon dark and the single unit
100 (so that the stale inputhealpix equals 100), the computed input coadd
path is DESI_SPECTRO_REDUX/everest/healpix/main/dark/100/100/coadd-main-dark-100.fits
and the computed output catalog path is
outdir/everest/healpix/main/dark/100/100/baltable-main-dark-100.fits,
for every nonempty outdir without a trailing slash. -/
theorem claim3_paths (env0 : String → Option String) (od : String)
    (h1 : ¬(od = "")) (h2 : endsWithSlash od = false) :
    coaddfilePath (dataroot env0 (argsHP100 od)) (argsHP100 od) "100" "100"
      = "/global/cfs/cdirs/desi/spectro/redux/everest/healpix/main/dark/100/100/coadd-main-dark-100.fits"
    ∧ balfilePath (outroot (argsHP100 od)) (argsHP100 od) "100" "100"
      = od ++ "/everest/healpix/main/dark/100/100/baltable-main-dark-100.fits" := by
  constructor
  · rfl
  · obtain ⟨e1, n1, w1⟩ := ospJoin_chain od "everest" h1 h2 (by decide) (by decide) (by decide)
    obtain ⟨e2, n2, w2⟩ := ospJoin_chain (od ++ "/" ++ "everest") "healpix" n1 w1
      (by decide) (by decide) (by decide)
    obtain ⟨e3, n3, w3⟩ := ospJoin_chain (od ++ "/" ++ "everest" ++ "/" ++ "healpix") "main" n2 w2
      (by decide) (by decide) (by decide)
    obtain ⟨e4, n4, w4⟩ := ospJoin_chain
      (od ++ "/" ++ "everest" ++ "/" ++ "healpix" ++ "/" ++ "main") "dark" n3 w3
      (by decide) (by decide) (by decide)
    obtain ⟨e5, n5, w5⟩ := ospJoin_chain
      (od ++ "/" ++ "everest" ++ "/" ++ "healpix" ++ "/" ++ "main" ++ "/" ++ "dark") "100" n4 w4
      (by decide) (by decide) (by decide)
    obtain ⟨e6, n6, w6⟩ := ospJoin_chain
      (od ++ "/" ++ "everest" ++ "/" ++ "healpix" ++ "/" ++ "main" ++ "/" ++ "dark" ++ "/" ++ "100")
      "100" n5 w5 (by decide) (by decide) (by decide)
    obtain ⟨e7, n7, w7⟩ := ospJoin_chain
      (od ++ "/" ++ "everest" ++ "/" ++ "healpix" ++ "/" ++ "main" ++ "/" ++ "dark" ++ "/" ++ "100"
        ++ "/" ++ "100") "baltable-main-dark-100.fits" n6 w6
      (by decide) (by decide) (by decide)
    have hbf : balfilename (argsHP100 od) "100" = "baltable-main-dark-100.fits" := rfl
    have hsl : pySlice3 "100" = "100" := rfl
    unfold balfilePath bucketDir outroot
    rw [hbf, hsl]
    dsimp only [argsHP100]
    rw [e1, e2, e3, e4, e5, e6, e7]
    simp only [strAppend_assoc]
    congr 1

/-- C3 witness: the path equalities at the concrete output root /myout. -/
theorem claim3_witness :
    ¬(("/myout" : String) = "")
    ∧ endsWithSlash "/myout" = false
    ∧ (coaddfilePath (dataroot env0none (argsHP100 "/myout")) (argsHP100 "/myout") "100" "100"
        = "/global/cfs/cdirs/desi/spectro/redux/everest/healpix/main/dark/100/100/coadd-main-dark-100.fits"
      ∧ balfilePath (outroot (argsHP100 "/myout")) (argsHP100 "/myout") "100" "100"
        = "/myout" ++ "/everest/healpix/main/dark/100/100/baltable-main-dark-100.fits") :=
  ⟨by decide, by decide, claim3_paths env0none "/myout" (by decide) (by decide)⟩

/-- C4: when the call for a unit u raises an exception of type e (and the
selected list has no duplicates), the loop still reaches every invokable
later unit, and the final failure lists pair u with e, u appearing exactly
once. -/
theorem claim4_error_isolation (c : RunCtx) (pre post : List String) (u e : String)
    (hnd : (pre ++ u :: post).Nodup)
    (hskip : skipCondition c u = true)
    (hraise : c.oracle (callOf c u) = some e) :
    (runLoop c (pre ++ u :: post) initState).issuehealpixels.count u = 1
    ∧ (u, e) ∈ (runLoop c (pre ++ u :: post) initState).issuehealpixels.zip
        (runLoop c (pre ++ u :: post) initState).errortypes
    ∧ (post.all (fun w => !(skipCondition c w)
        || memB w (runLoop c (pre ++ u :: post) initState).invoked)) = true := by
  have hup : u ∉ pre := by
    have hd := (List.nodup_append.mp hnd).2.2
    intro hu
    exact hd hu (List.mem_cons_self u post)
  have hIP : issuePairs c (pre ++ u :: post)
      = issuePairs c pre ++ ((u, e) :: issuePairs c post) := by
    rw [issuePairs_append]
    congr 1
    unfold issuePairs
    rw [List.filterMap_cons]
    simp [hskip, hraise]
  rw [runLoop_eq]
  dsimp only [initState]
  simp only [List.nil_append]
  refine ⟨?_, ?_, ?_⟩
  · rw [hIP]
    simp only [List.map_append, List.map_cons]
    rw [List.count_append, List.count_cons_self]
    have hz1 : ((issuePairs c pre).map Prod.fst).count u = 0 := by
      rw [List.count_eq_zero]
      intro hm
      obtain ⟨p, hp, hpe⟩ := List.mem_map.mp hm
      exact hup (hpe ▸ (issuePairs_mem c pre p hp).1)
    have hz2 : ((issuePairs c post).map Prod.fst).count u = 0 := by
      rw [List.count_eq_zero]
      intro hm
      obtain ⟨p, hp, hpe⟩ := List.mem_map.mp hm
      have hupost : u ∉ post :=
        (List.nodup_cons.mp (List.nodup_append.mp hnd).2.1).1
      exact hupost (hpe ▸ (issuePairs_mem c post p hp).1)
    rw [hz1, hz2]
  · rw [zip_fst_snd, hIP]
    exact List.mem_append_right _ (List.mem_cons_self _ _)
  · rw [List.all_eq_true]
    intro w hw
    by_cases hsw : skipCondition c w = true
    · have hwmem : w ∈ invokedUnits c (pre ++ u :: post) :=
        List.mem_filter.mpr ⟨List.mem_append_right pre (List.mem_cons_of_mem u hw), hsw⟩
      simp [memB_iff, hwmem]
    · simp [Bool.not_eq_true] at hsw
      simp [hsw]

/-- C4 witness: the error-isolation conclusion at a concrete context in
which unit 100 raises OSError and unit 200 follows it. -/
theorem claim4_witness :
    (([] ++ "100" :: ["200"] : List String)).Nodup
    ∧ skipCondition ctxW4 "100" = true
    ∧ ctxW4.oracle (callOf ctxW4 "100") = some "OSError"
    ∧ ((runLoop ctxW4 ([] ++ "100" :: ["200"]) initState).issuehealpixels.count "100" = 1
      ∧ ("100", "OSError") ∈ (runLoop ctxW4 ([] ++ "100" :: ["200"]) initState).issuehealpixels.zip
          (runLoop ctxW4 ([] ++ "100" :: ["200"]) initState).errortypes
      ∧ ((["200"].all (fun w => !(skipCondition ctxW4 w)
          || memB w (runLoop ctxW4 ([] ++ "100" :: ["200"]) initState).invoked))) = true) :=
  ⟨by decide, by decide, by decide,
    claim4_error_isolation ctxW4 [] ["200"] "100" "OSError" (by decide) (by decide) (by decide)⟩

/-- C5 counterexample: in the run of argsC5 the requested unit 999 is not
available, so the process exits with status 1 through the assertion, not
through a directory-creation permission failure: non-zero exit is NOT
restricted to permission errors. -/
theorem claim5_counterexample :
    ¬(statusOf (runProgram env0none allTrue allTrue glob1 allFalse noRaise argsC5) ≠ 0
      → ∃ d, runProgram env0none allTrue allTrue glob1 allFalse noRaise argsC5
          = Termination.permExit d) := by
  intro h
  obtain ⟨d, hd⟩ := h (by decide)
  have heval : runProgram env0none allTrue allTrue glob1 allFalse noRaise argsC5
      = Termination.assertFail msgC5 := by decide
  rw [heval] at hd
  exact Termination.noConfusion hd

/-- C5 (amended): a non-zero exit status arises only from a
directory-creation permission failure or from the membership assertion, and
the exit status never depends on which desibalfinder calls raise: all
per-unit failures are caught and the run then ends with status 0. -/
theorem claim5_exit_status (env0 : String → Option String)
    (isdir mkdirOk : String → Bool) (globFn : String → List String)
    (isfile : String → Bool) (o o' : BalCall → Option String) (a : Args)
    (h : statusOf (runProgram env0 isdir mkdirOk globFn isfile o a) ≠ 0) :
    ((∃ d, runProgram env0 isdir mkdirOk globFn isfile o a = Termination.permExit d)
      ∨ (∃ m, runProgram env0 isdir mkdirOk globFn isfile o a = Termination.assertFail m))
    ∧ statusOf (runProgram env0 isdir mkdirOk globFn isfile o a)
        = statusOf (runProgram env0 isdir mkdirOk globFn isfile o' a) := by
  refine ⟨?_, statusOf_oracle_indep env0 isdir mkdirOk globFn isfile o o' a⟩
  cases hr : runProgram env0 isdir mkdirOk globFn isfile o a with
  | permExit d => exact Or.inl ⟨d, rfl⟩
  | assertFail m => exact Or.inr ⟨m, rfl⟩
  | finished st =>
    rw [hr] at h
    exact absurd rfl h

/-- C5 witness: the amended conclusion at the concrete aborting run. -/
theorem claim5_witness :
    statusOf (runProgram env0none allTrue allTrue glob1 allFalse noRaise argsC5) ≠ 0
    ∧ (((∃ d, runProgram env0none allTrue allTrue glob1 allFalse noRaise argsC5
          = Termination.permExit d)
        ∨ (∃ m, runProgram env0none allTrue allTrue glob1 allFalse noRaise argsC5
            = Termination.assertFail m))
      ∧ statusOf (runProgram env0none allTrue allTrue glob1 allFalse noRaise argsC5)
          = statusOf (runProgram env0none allTrue allTrue glob1 allFalse raiseValueError argsC5)) :=
  ⟨by decide, claim5_exit_status env0none allTrue allTrue glob1 allFalse noRaise
    raiseValueError argsC5 (by decide)⟩

/-- C6 counterexample: with DESI_SPECTRO_REDUX set to /custom at startup,
the input root is NOT /custom joined with release/healpix/survey/moon: the
assignment on line 40 overwrites the starting value before line 74 reads
it. -/
theorem claim6_counterexample :
    env6 "DESI_SPECTRO_REDUX" = some "/custom"
    ∧ ¬(dataroot env6 argsDflt
        = ospJoin (ospJoin (ospJoin (ospJoin "/custom" argsDflt.release) "healpix")
            argsDflt.survey) argsDflt.moon) := by
  constructor
  · rfl
  · decide

/-- C6 (amended): the input root is independent of the starting
environment; the script overwrites DESI_SPECTRO_REDUX with the fixed
constant /global/cfs/cdirs/desi/spectro/redux, and the input root is that
constant joined with release/healpix/survey/moon. -/
theorem claim6_env_overwritten (env0 env0' : String → Option String) (a : Args) :
    dataroot env0 a = dataroot env0' a
    ∧ dataroot env0 a
      = ospJoin (ospJoin (ospJoin (ospJoin spectroRedux a.release) "healpix") a.survey) a.moon
    ∧ setSpectroRedux env0 "DESI_SPECTRO_REDUX" = some spectroRedux :=
  ⟨rfl, rfl, rfl⟩

/-- C7: requesting units 100 and 999 when only 100 is available aborts the
run with an assertion failure, but the assert message on line 98 formats
the WHOLE requested list (the typo inputhealpixels for inputhealpixel), so
it does not name the offending unit 999 on its own. -/
theorem claim7_assert_message_eval :
    firstMissing ["100", "999"] (availHealpixels glob1 env0none (applyDebug argsC7)) = some "999"
    ∧ runProgram env0none allTrue allTrue glob1 allFalse noRaise argsC7
        = Termination.assertFail msgC7
    ∧ ¬(msgC7 = "Healpix 999 not available") := by
  decide

/-- C8: at every point of the run (after any prefix of the selected units)
the two failure lists have equal length, and zipping them yields exactly
the failure pairs, each failed unit paired with the error type its own call
raised. -/
theorem claim8_parallel_failure_lists (c : RunCtx) (units : List String) (n : Nat) :
    (runLoop c (units.take n) initState).issuehealpixels.length
      = (runLoop c (units.take n) initState).errortypes.length
    ∧ (runLoop c (units.take n) initState).issuehealpixels.zip
        (runLoop c (units.take n) initState).errortypes
      = issuePairs c (units.take n) := by
  rw [runLoop_eq]
  dsimp only [initState]
  simp only [List.nil_append]
  exact ⟨by simp, zip_fst_snd _⟩

/-- C9: the debug constant is set, args.verbose is forced to true after
parsing whatever was passed, and every desibalfinder call of every run
carries verbose = true. -/
theorem claim9_verbose_always_true (env0 : String → Option String)
    (isdir mkdirOk : String → Bool) (globFn : String → List String)
    (isfile : String → Bool) (o : BalCall → Option String) (a : Args) :
    debug = true
    ∧ (applyDebug a).verbose = true
    ∧ ((callsOf (runProgram env0 isdir mkdirOk globFn isfile o a)).all
        (fun cl => cl.verbose)) = true :=
  ⟨rfl, rfl, runProgram_calls_verbose env0 isdir mkdirOk globFn isfile o a⟩

/-- C10: argparse type bool maps an absent option or an empty argument to
false and every nonempty argument string, including False and 0, to true;
a set clobber flag disables the skip check (every selected unit is
invoked) and is passed as the overwrite argument of every call. -/
theorem claim10_clobber_parsing_and_use (c : RunCtx) (units : List String)
    (hc : c.args.clobber = true) :
    parseClobber none = false
    ∧ parseClobber (some "") = false
    ∧ parseClobber (some "False") = true
    ∧ parseClobber (some "0") = true
    ∧ (∀ s : String, parseClobber (some s) = true ↔ ¬(s = ""))
    ∧ (runLoop c units initState).invoked = units
    ∧ (∀ u : String, (callOf c u).overwrite = true) := by
  refine ⟨rfl, rfl, rfl, rfl, ?_, ?_, ?_⟩
  · intro s
    simp [parseClobber, pyBool]
  · rw [runLoop_eq]
    dsimp only [initState]
    simp only [List.nil_append]
    unfold invokedUnits
    apply List.filter_eq_self.mpr
    intro u hu
    simp [skipCondition, hc]
  · intro u
    simp [callOf, hc]

/-- C10 witness: the clobber conclusions at a concrete context with the
flag set and two selected units. -/
theorem claim10_witness :
    ctxW10.args.clobber = true
    ∧ (parseClobber none = false
      ∧ parseClobber (some "") = false
      ∧ parseClobber (some "False") = true
      ∧ parseClobber (some "0") = true
      ∧ (∀ s : String, parseClobber (some s) = true ↔ ¬(s = ""))
      ∧ (runLoop ctxW10 ["a", "b"] initState).invoked = ["a", "b"]
      ∧ (∀ u : String, (callOf ctxW10 u).overwrite = true)) :=
  ⟨rfl, claim10_clobber_parsing_and_use ctxW10 ["a", "b"] rfl⟩

end BalFinderHP
